import Mathlib

/-!
Verification development for the whatsapp-cli local message store and its
synchronization engine.  The definitions below are a shallow embedding of
the Go source: the SQLite schema of internal/store (tables chats, messages,
lid_mappings, the FTS5 index messages_fts and its triggers), the ingestion
handlers handleMessage and handleHistorySync, the name-resolution cascade,
the auto-sync staleness policy, the media download guard and the Ogg/Opus
duration analyzer.  SQLite specifics that the embedded statements rely on
are modelled explicitly: INSERT OR REPLACE removes the conflicting row
without firing the AFTER DELETE trigger (recursive_triggers is off) and
assigns the fresh row the rowid max+1 computed over the table at statement
start; the FTS5 external-content delete command given only a rowid and no
column values removes no postings.
-/

namespace WhatsappCli

/-- Columns of one row of the messages table (schema in store.migrate). -/
structure MsgFields where
  id : String
  chat_jid : String
  sender : String
  sender_name : String
  content : String
  timestamp : Int
  is_from_me : Bool
  media_type : String
  filename : String
  url : String
  media_key : List Nat
  file_sha256 : List Nat
  file_enc_sha256 : List Nat
  file_length : Nat
deriving DecidableEq, Repr

/-- A stored messages row together with its SQLite rowid. -/
structure MsgRow where
  rowid : Nat
  fields : MsgFields
deriving DecidableEq, Repr

/-- One row of the chats table; `none` in a column models SQL NULL. -/
structure ChatRow where
  jid : String
  name : Option String
  last_message_time : Option Int
deriving DecidableEq, Repr

/-- The messages database: chats, messages, the FTS5 posting list
(pairs of rowid and the content indexed for that rowid), and lid_mappings
rows (lid, phone, name). -/
structure MsgDB where
  chats : List ChatRow
  messages : List MsgRow
  fts : List (Nat × String)
  lidMappings : List (String × String × String)
deriving DecidableEq, Repr

def emptyDB : MsgDB := ⟨[], [], [], []⟩

/-- Largest rowid present in the messages table (0 when empty). -/
def maxRowid (ms : List MsgRow) : Nat :=
  ms.foldr (fun r acc => max r.rowid acc) 0

/-- Key equality test used by the PRIMARY KEY (id, chat_jid). -/
def keyMatch (id chat : String) (r : MsgRow) : Bool :=
  r.fields.id == id && r.fields.chat_jid == chat

/-- INSERT OR REPLACE INTO messages (both ingestion handlers use this
statement).  The conflicting row with the same (id, chat_jid) is removed by
the REPLACE step without firing the AFTER DELETE trigger, the new row gets
rowid maxRowid+1 assigned before the conflict removal, and the AFTER INSERT
trigger messages_ai adds an FTS posting for the new content. -/
def insertOrReplaceMessage (db : MsgDB) (f : MsgFields) : MsgDB :=
  let newRowid := maxRowid db.messages + 1
  { db with
    messages := db.messages.filter (fun r => !(keyMatch f.id f.chat_jid r)) ++ [⟨newRowid, f⟩]
    fts := db.fts ++ [(newRowid, f.content)] }

/-- DELETE FROM messages WHERE id = ? AND chat_jid = ?.  The AFTER DELETE
trigger messages_ad issues the FTS5 delete command with only old.rowid and
no column values, which removes no postings, so fts is unchanged. -/
def deleteMessage (db : MsgDB) (id chat : String) : MsgDB :=
  { db with messages := db.messages.filter (fun r => !(keyMatch id chat r)) }

/-- UPDATE messages SET content = ? WHERE id = ? AND chat_jid = ?.  The
AFTER UPDATE trigger messages_au likewise passes no old column values to
the FTS delete command (no postings removed) and then inserts a posting
for the new content under the unchanged rowid. -/
def updateMessageContent (db : MsgDB) (id chat newContent : String) : MsgDB :=
  { db with
    messages := db.messages.map (fun r =>
      if keyMatch id chat r then ⟨r.rowid, { r.fields with content := newContent }⟩ else r)
    fts := db.fts ++
      (db.messages.filter (fun r => keyMatch id chat r)).map (fun r => (r.rowid, newContent)) }

/-- A message-table mutation: the three mutation paths the schema triggers
cover. -/
inductive MsgOp where
  | ins (f : MsgFields)
  | upd (id chat newContent : String)
  | del (id chat : String)

def applyMsgOp (db : MsgDB) : MsgOp → MsgDB
  | .ins f => insertOrReplaceMessage db f
  | .upd id chat c => updateMessageContent db id chat c
  | .del id chat => deleteMessage db id chat

def applyMsgOps (ops : List MsgOp) (db : MsgDB) : MsgDB :=
  ops.foldl applyMsgOp db

/-- Splits a character list into space-separated words (accumulator holds
the current word reversed). -/
def splitWordsAux : List Char → List Char → List String
  | [], acc => [String.mk acc.reverse]
  | c :: cs, acc =>
      if c == ' ' then String.mk acc.reverse :: splitWordsAux cs []
      else splitWordsAux cs (c :: acc)

/-- The space-separated words of a text. -/
def wordsOf (content : String) : List String :=
  splitWordsAux content.toList []

/-- FTS5 unicode61 token membership for the simple space-separated
lowercase contents used here: MATCH tok holds of an indexed text iff tok is
one of its space-separated words. -/
def tokenMatch (tok content : String) : Bool :=
  (wordsOf content).contains tok

/-- SearchMessages core: SELECT m.* FROM messages m JOIN messages_fts fts
ON m.rowid = fts.rowid WHERE messages_fts MATCH tok.  A stored row is
returned iff the index holds a posting for its rowid whose indexed content
carries the token (each matching rowid is produced once by FTS).  The
ORDER BY timestamp DESC and LIMIT of the full query do not affect
membership and are omitted. -/
def searchMessages (db : MsgDB) (tok : String) : List MsgRow :=
  db.messages.filter (fun r => db.fts.any (fun p => p.1 == r.rowid && tokenMatch tok p.2))

/-- All stored rows under a (id, chat_jid) key, in table order. -/
def getMessage (db : MsgDB) (id chat : String) : List MsgFields :=
  (db.messages.filter (keyMatch id chat)).map MsgRow.fields

/-- A contact entry of the whatsmeow contact store. -/
structure ContactEntry where
  fullName : String
  businessName : String
  pushName : String
deriving DecidableEq, Repr

/-- The external WhatsApp directory: contact entries keyed by JID string
and group names keyed by group JID string (GetGroupInfo).  A missing key
models a lookup error or an unknown record; both leave every cascade
branch untaken. -/
structure Directory where
  contacts : List (String × ContactEntry)
  groups : List (String × String)
deriving DecidableEq, Repr

def getContact (dir : Directory) (jid : String) : Option ContactEntry :=
  (dir.contacts.find? (fun e => e.1 == jid)).map (fun e => e.2)

def getGroupName (dir : Directory) (jid : String) : Option String :=
  (dir.groups.find? (fun e => e.1 == jid)).map (fun e => e.2)

/-- Splits a character list at the first occurrence of the at sign. -/
def splitAtSign : List Char → Option (List Char × List Char)
  | [] => none
  | c :: cs =>
      if c == '@' then some ([], cs)
      else (splitAtSign cs).map (fun p => (c :: p.1, p.2))

/-- Modelled from the spec: parseJID is not among the provided sources; per
the glossary an identifier is a local part before a domain suffix.  The
local part of a string is what stands before its first at sign, empty when
there is none or when the at sign comes first. -/
def jidUser (s : String) : String :=
  match splitAtSign s.toList with
  | some p => String.mk p.1
  | none => ""

/-- Modelled from the spec: the domain suffix of an identifier, the whole
string when it carries no at sign. -/
def jidServer (s : String) : String :=
  match splitAtSign s.toList with
  | some p => String.mk p.2
  | none => s

/-- strings.Contains with the at sign. -/
def hasAt (s : String) : Bool :=
  s.toList.contains '@'

def findChat (db : MsgDB) (jid : String) : Option ChatRow :=
  db.chats.find? (fun r => r.jid == jid)

/-- store.ResolveSenderName: the lid_mappings name first (when the row is
found and the name is non-empty), then a non-empty name on the chats row
for the identifier, suffixed with the phone domain when it carries no at
sign; empty string otherwise. -/
def ResolveSenderName (db : MsgDB) (sender : String) : String :=
  let fromLid :=
    match db.lidMappings.find? (fun e => e.1 == sender) with
    | some e => e.2.2
    | none => ""
  if fromLid ≠ "" then fromLid
  else
    let jid := if hasAt sender then sender else sender ++ "@s.whatsapp.net"
    match findChat db jid with
    | some row =>
        match row.name with
        | some n => if n ≠ "" then n else ""
        | none => ""
    | none => ""

/-- Client.resolvePreferredName: the group info name for group identifiers
(falling back to Group plus the local part), otherwise the contact full
name, business name, push name, and finally the local part. -/
def resolvePreferredName (dir : Directory) (jidStr : String) : String :=
  if jidServer jidStr == "g.us" then
    match getGroupName dir jidStr with
    | some n => if n ≠ "" then n else "Group " ++ jidUser jidStr
    | none => "Group " ++ jidUser jidStr
  else
    match getContact dir jidStr with
    | some c =>
        if c.fullName ≠ "" then c.fullName
        else if c.businessName ≠ "" then c.businessName
        else if c.pushName ≠ "" then c.pushName
        else jidUser jidStr
    | none => jidUser jidStr

/-- The preference applied inside one contact hit of
Client.resolveSenderName: full name, then the self-reported push name. -/
def contactHitName (c : ContactEntry) : String :=
  if c.fullName ≠ "" then c.fullName
  else if c.pushName ≠ "" then c.pushName
  else ""

/-- Client.resolveSenderName: the store lookup (lid mappings, then chat
name), then when the sender JID is non-empty the contact store under the
exact sender JID and under the phone-based variant of the bare sender
(each hit preferring full name then push name), then the push name
embedded in the message, then the empty string. -/
def resolveSenderName (db : MsgDB) (dir : Directory) (sender : String)
    (senderJID : Option String) (pushName : String) : String :=
  let fromStore := ResolveSenderName db sender
  if fromStore ≠ "" then fromStore
  else
    let viaContacts :=
      match senderJID with
      | none => ""
      | some sj =>
          let h1 :=
            match getContact dir sj with
            | some c => contactHitName c
            | none => ""
          if h1 ≠ "" then h1
          else
            match getContact dir (sender ++ "@s.whatsapp.net") with
            | some c => contactHitName c
            | none => ""
    if viaContacts ≠ "" then viaContacts
    else if pushName ≠ "" then pushName
    else ""

/-- Client.getChatName: an existing non-empty stored chat name, then
resolvePreferredName, then the sender string, then the local part of the
chat JID when the at sign sits past the first character, then the JID
itself. -/
def getChatName (db : MsgDB) (dir : Directory) (chatJID sender : String) : String :=
  let existing :=
    match findChat db chatJID with
    | some row => row.name.getD ""
    | none => ""
  if existing ≠ "" then existing
  else
    let resolved := resolvePreferredName dir chatJID
    if resolved ≠ "" then resolved
    else if sender ≠ "" then sender
    else if jidUser chatJID ≠ "" then jidUser chatJID
    else chatJID

/-- INSERT OR REPLACE INTO chats (jid, name, last_message_time): the
conflicting row is fully replaced by the new values. -/
def insertOrReplaceChat (db : MsgDB) (jid : String) (name : Option String)
    (t : Option Int) : MsgDB :=
  { db with chats := db.chats.filter (fun r => !(r.jid == jid)) ++ [⟨jid, name, t⟩] }

/-- Plain INSERT INTO chats (jid, name): on a primary-key conflict the
statement fails and both handlers drop the error. -/
def insertChatIfAbsent (db : MsgDB) (jid : String) (name : Option String) : MsgDB :=
  if db.chats.any (fun r => r.jid == jid) then db
  else { db with chats := db.chats ++ [⟨jid, name, none⟩] }

/-- UPDATE chats SET name = ? WHERE jid = ?. -/
def updateChatName (db : MsgDB) (jid name : String) : MsgDB :=
  { db with chats := db.chats.map (fun r =>
      if r.jid == jid then ⟨r.jid, some name, r.last_message_time⟩ else r) }

/-- The per-sender shadow chat block shared by handleMessage and
handleHistorySync: it scans the name of the chat row keyed by the sender
with the phone domain suffix.  When the scan yields no valid name (row
absent, or NULL name) it runs a plain INSERT with a resolved name, which
is a silent no-op when a row with NULL name exists; when the row holds the
empty name it updates it to a non-empty resolved name. -/
def upsertShadowChat (dir : Directory) (db : MsgDB) (snd : String) : MsgDB :=
  let indiv := snd ++ "@s.whatsapp.net"
  match findChat db indiv with
  | none => insertChatIfAbsent db indiv (some (resolvePreferredName dir indiv))
  | some row =>
      match row.name with
      | none => db
      | some n =>
          if n == "" then
            let resolved := resolvePreferredName dir indiv
            if resolved ≠ "" then updateChatName db indiv resolved else db
          else db

/-- A live message event as handleMessage reads it from events.Message
after extractTextContent and extractMediaInfo (the transport owns the
decoding).  A senderJID of none models an empty msg.Info.Sender. -/
structure LiveMessage where
  id : String
  chatJID : String
  sender : String
  senderJID : Option String
  pushName : String
  timestamp : Int
  isFromMe : Bool
  content : String
  mediaType : String
  filename : String
  url : String
  mediaKey : List Nat
  fileSHA256 : List Nat
  fileEncSHA256 : List Nat
  fileLength : Nat
deriving DecidableEq, Repr

/-- handleMessage: drop when neither text nor media was extracted, resolve
the sender name, upsert the per-sender shadow chat, INSERT OR REPLACE the
chat row with getChatName and the incoming timestamp, then INSERT OR
REPLACE the message row with every extracted column. -/
def handleMessage (dir : Directory) (db : MsgDB) (m : LiveMessage) : MsgDB :=
  if m.content == "" && m.mediaType == "" then db
  else
    let senderName := resolveSenderName db dir m.sender m.senderJID m.pushName
    let db1 := if m.sender ≠ "" then upsertShadowChat dir db m.sender else db
    let name := getChatName db1 dir m.chatJID m.sender
    let db2 := insertOrReplaceChat db1 m.chatJID (some name) (some m.timestamp)
    insertOrReplaceMessage db2
      ⟨m.id, m.chatJID, m.sender, senderName, m.content, m.timestamp, m.isFromMe,
        m.mediaType, m.filename, m.url, m.mediaKey, m.fileSHA256, m.fileEncSHA256, m.fileLength⟩

/-- One raw history-sync backlog message (fields of the WebMessageInfo
record the handler reads; a timestamp of 0 models a missing timestamp). -/
structure HistoryMessage where
  keyID : Option String
  keyFromMe : Bool
  keyParticipant : Option String
  timestamp : Int
  content : String
  mediaType : String
  filename : String
  url : String
  mediaKey : List Nat
  fileSHA256 : List Nat
  fileEncSHA256 : List Nat
  fileLength : Nat
deriving DecidableEq, Repr

/-- The sender identifier handleHistorySync derives for one backlog
message of chatJID: the local part of the chat for bare messages, the key
participant for non-self messages when present, the local account
identity ownUser for self-authored messages, stripped to its local part
when the result still carries an at sign. -/
def historySender (ownUser chatJID : String) (m : HistoryMessage) : String :=
  let snd1 :=
    if !m.keyFromMe && (m.keyParticipant.getD "") ≠ "" then m.keyParticipant.getD ""
    else jidUser chatJID
  let snd2 := if m.keyFromMe then ownUser else snd1
  if hasAt snd2 then jidUser snd2 else snd2

/-- The body of the message loop of handleHistorySync for one backlog
message of conversation chatJID; ownUser is the local account identity
substituted for self-authored messages. -/
def handleHistoryMessage (dir : Directory) (ownUser chatJID : String)
    (db : MsgDB) (m : HistoryMessage) : MsgDB :=
  if m.content == "" && m.mediaType == "" then db
  else
    let fromMe := m.keyFromMe
    let snd := historySender ownUser chatJID m
    let db1 := if !fromMe && snd ≠ "" then upsertShadowChat dir db snd else db
    if m.timestamp == 0 then db1
    else
      let senderName0 := ResolveSenderName db1 snd
      let senderName :=
        if senderName0 == "" then resolvePreferredName dir (snd ++ "@s.whatsapp.net")
        else senderName0
      insertOrReplaceMessage db1
        ⟨m.keyID.getD "", chatJID, snd, senderName, m.content, m.timestamp, fromMe,
          m.mediaType, m.filename, m.url, m.mediaKey, m.fileSHA256, m.fileEncSHA256, m.fileLength⟩

/-- One history-sync conversation: its chat JID and backlog messages. -/
structure Conversation where
  chatJID : String
  messages : List HistoryMessage
deriving Repr

/-- handleHistorySync for one conversation: the chat row is INSERT OR
REPLACEd only when the first backlog message carries a nonzero timestamp,
using getChatName with an empty sender and that first timestamp; every
backlog message then runs through handleHistoryMessage in order. -/
def handleHistoryConversation (dir : Directory) (ownUser : String)
    (db : MsgDB) (conv : Conversation) : MsgDB :=
  let name := getChatName db dir conv.chatJID ""
  let db1 :=
    match conv.messages.head? with
    | some m0 =>
        if m0.timestamp ≠ 0 then
          insertOrReplaceChat db conv.chatJID (some name) (some m0.timestamp)
        else db
    | none => db
  conv.messages.foldl (handleHistoryMessage dir ownUser conv.chatJID) db1

/-- The last_message_time column of a chat row, none when the row is
absent. -/
def chatLastTime (db : MsgDB) (jid : String) : Option (Option Int) :=
  (findChat db jid).map (fun r => r.last_message_time)

/-- store.StoreLIDMapping: INSERT INTO lid_mappings with ON CONFLICT(lid)
DO UPDATE SET phone = COALESCE(NULLIF(excluded.phone, empty), phone) and
likewise for name: on conflict each column is replaced exactly when the
incoming value is non-empty. -/
def StoreLIDMapping (db : MsgDB) (lid phone name : String) : MsgDB :=
  if db.lidMappings.any (fun e => e.1 == lid) then
    { db with lidMappings := db.lidMappings.map (fun e =>
        if e.1 == lid then
          (e.1, (if phone ≠ "" then phone else e.2.1), (if name ≠ "" then name else e.2.2))
        else e) }
  else
    { db with lidMappings := db.lidMappings ++ [(lid, phone, name)] }

/-- The stored (phone, name) pair of a lid_mappings row
(store.GetLIDMapping without the found flag). -/
def lookupLid (db : MsgDB) (lid : String) : Option (String × String) :=
  (db.lidMappings.find? (fun e => e.1 == lid)).map (fun e => e.2)

/-- The 24 hour staleness threshold of autosync.go, in seconds. -/
def autoSyncThreshold : Int := 24 * 3600

/-- shouldAutoSync: never when the opt-out flag is set; otherwise when no
prior success is recorded, or when the elapsed time since the recorded
last success exceeds the threshold.  NoAutoSync and GetLastSyncTime are
state accessors whose bodies are not among the provided sources; modelled
from the spec, the opt-out flag and the persisted last-success timestamp
(absent until a first sync attempt completes) are explicit arguments, in
seconds. -/
def shouldAutoSync (noAutoSync : Bool) (lastSync : Option Int) (now : Int) : Bool :=
  if noAutoSync then false
  else
    match lastSync with
    | none => true
    | some t => now - t > autoSyncThreshold

/-- The persisted scheduler state: the last-success timestamp SyncState,
absent until the first sync attempt completes.  SetLastSyncTime is
modelled from the spec as the write of this state. -/
structure SyncState where
  lastSync : Option Int
deriving DecidableEq, Repr

/-- How the bounded wait of performQuickSync ends: the completion signal
was received from the SyncComplete channel, or the 30 second timer
fired. -/
inductive QuickWait where
  | completed
  | timedOut
deriving DecidableEq, Repr

/-- How the bounded wait of runSync (one-time mode) ends: user
cancellation, the completion signal, or the 2 minute timer. -/
inductive RunSyncWait where
  | cancelled
  | completed
  | timedOut
deriving DecidableEq, Repr

/-- performQuickSync: select on the SyncComplete channel against a timer,
then SetLastSyncTime(now) regardless of which case fired. -/
def performQuickSync (w : QuickWait) (now : Int) (st : SyncState) : SyncState :=
  match w with
  | .completed => { st with lastSync := some now }
  | .timedOut => { st with lastSync := some now }

/-- The tail of runSync in one-time mode: select on cancellation, the
SyncComplete channel and a timer, disconnect, then SetLastSyncTime(now)
in every case. -/
def runSyncFinish (w : RunSyncWait) (now : Int) (st : SyncState) : SyncState :=
  match w with
  | .cancelled => { st with lastSync := some now }
  | .completed => { st with lastSync := some now }
  | .timedOut => { st with lastSync := some now }

/-- The error outcomes of DownloadMedia before any transfer: the row scan
found no stored message, or the stored media descriptor is missing a
required field. -/
inductive DownloadErr where
  | notFound
  | incompleteMedia
deriving DecidableEq, Repr

/-- The descriptor handed to the transport download primitive when every
required field is present. -/
structure Downloadable where
  url : String
  mediaKey : List Nat
  fileLength : Nat
  fileSHA256 : List Nat
  fileEncSHA256 : List Nat
  mediaType : String
deriving DecidableEq, Repr

/-- DownloadMedia up to the decision point: scan the stored row of the
referenced (message id, chat) key, fail with the incomplete-media error
when media_type, url, media_key, file_sha256, file_enc_sha256 or
file_length is empty, and otherwise return the descriptor passed to the
transport download call (a .ok result is exactly an attempted
download). -/
def DownloadMedia (db : MsgDB) (messageID chatJID : String) :
    Except DownloadErr Downloadable :=
  match (getMessage db messageID chatJID).head? with
  | none => .error .notFound
  | some f =>
      if f.media_type == "" || f.url == "" || f.media_key.isEmpty
          || f.file_sha256.isEmpty || f.file_enc_sha256.isEmpty || f.file_length == 0 then
        .error .incompleteMedia
      else
        .ok ⟨f.url, f.media_key, f.file_length, f.file_sha256, f.file_enc_sha256, f.media_type⟩

/-- The four signature bytes OggS. -/
def oggSBytes : List Nat := [79, 103, 103, 83]

/-- The eight signature bytes OpusHead. -/
def opusHeadBytes : List Nat := [79, 112, 117, 115, 72, 101, 97, 100]

/-- Little-endian read of w bytes at offset off (out-of-range bytes read
as 0; every read of the source is guarded in range). -/
def readLE (data : List Nat) (off : Nat) : Nat → Nat
  | 0 => 0
  | w + 1 => data.getD off 0 + 256 * readLE data (off + 1) w

/-- The byte slice from index a (inclusive) to b (exclusive). -/
def byteSlice (data : List Nat) (a b : Nat) : List Nat :=
  (data.drop a).take (b - a)

/-- Whether sig stands at the head of the byte list. -/
def matchesAt : List Nat → List Nat → Bool
  | [], _ => true
  | _ :: _, [] => false
  | s :: st, d :: dt => s == d && matchesAt st dt

/-- bytes.Index: the first offset where sig occurs, none when it does
not. -/
def indexOfBytes (sig : List Nat) : List Nat → Option Nat
  | [] => if matchesAt sig [] then some 0 else none
  | d :: dt =>
      if matchesAt sig (d :: dt) then some 0
      else (indexOfBytes sig dt).map (fun p => p + 1)

/-- Failure outcomes of the analyzer: the missing container signature
(errors.New not an Ogg file), or the Go runtime bounds failure raised by
the unguarded pageData slice when a page examined for the codec block
extends past the end of the buffer. -/
inductive OggError where
  | notOgg
  | pageOutOfRange
deriving DecidableEq, Repr

/-- The scan accumulator of AnalyzeOggOpus: lastGranule and preSkip start
at 0, sampleRate at 48000, foundHead at false. -/
structure OggScan where
  lastGranule : Nat
  sampleRate : Nat
  preSkip : Nat
  foundHead : Bool
deriving DecidableEq, Repr

def initScan : OggScan := ⟨0, 48000, 0, false⟩

/-- The page walk of AnalyzeOggOpus from byte offset i: stop when fewer
than 28 bytes remain, resynchronize byte by byte to the page signature,
read the granule position, page sequence number and segment count from
their fixed header offsets, stop when the segment table runs past the end,
and on the first pages (sequence number at most 1, codec block not yet
found) search the whole page for OpusHead and read pre-skip and sample
rate from their fixed offsets inside it; a page whose declared size runs
past the end of the buffer is sliced unguarded there, a runtime bounds
failure.  The fuel argument only bounds the iteration count so the
recursion is structural: the byte offset strictly increases on every
iteration, so fuel of one more than the buffer length always outlasts
the walk. -/
def analyzeLoop (data : List Nat) : Nat → OggScan → Nat → Except OggError OggScan
  | 0, st, _ => .ok st
  | fuel + 1, st, i =>
    if i < data.length then
      if data.length ≤ i + 27 then .ok st
      else if byteSlice data i (i + 4) ≠ oggSBytes then analyzeLoop data fuel st (i + 1)
      else
        let granulePos := readLE data (i + 6) 8
        let pageSeqNum := readLE data (i + 18) 4
        let numSegments := data.getD (i + 26) 0
        if data.length ≤ i + 27 + numSegments then .ok st
        else
          let segmentTable := byteSlice data (i + 27) (i + 27 + numSegments)
          let pageSize := 27 + numSegments + segmentTable.sum
          if ¬ st.foundHead ∧ pageSeqNum ≤ 1 then
            if data.length < i + pageSize then .error .pageOutOfRange
            else
              let pageData := byteSlice data i (i + pageSize)
              let st1 :=
                match indexOfBytes opusHeadBytes pageData with
                | some pos =>
                    if pos + 16 ≤ pageData.length ∧ pos + 24 ≤ pageData.length then
                      { st with
                          preSkip := readLE pageData (pos + 10) 2
                          sampleRate := readLE pageData (pos + 12) 4
                          foundHead := true }
                    else st
                | none => st
              analyzeLoop data fuel
                (if granulePos ≠ 0 then { st1 with lastGranule := granulePos } else st1)
                (i + pageSize)
          else
            analyzeLoop data fuel
              (if granulePos ≠ 0 then { st with lastGranule := granulePos } else st)
              (i + pageSize)
    else .ok st

/-- Natural ceiling division. -/
def ceilDiv (a b : Nat) : Nat :=
  (a + b - 1) / b

/-- The final clamp of the duration to the interval from 1 to 300. -/
def clampDuration (d : Nat) : Nat :=
  if d < 1 then 1 else if d > 300 then 300 else d

/-- The duration formula of the spec for a stream whose last granule
position is g with pre-skip s and sample rate r: the ceiling of the
64-bit wrapping difference g minus s over r, clamped. -/
def durationFromGranule (g s r : Nat) : Nat :=
  clampDuration (ceilDiv ((g + 2 ^ 64 - s) % 2 ^ 64) r)

/-- The fallback duration of the spec for a buffer of n bytes with no
granule-bearing page: n over the fixed constant 2000, clamped. -/
def fallbackDuration (n : Nat) : Nat :=
  clampDuration (n / 2000)

/-- AnalyzeOggOpus, duration output.  The four-byte signature check guards
the scan; the duration is the ceiling of the difference of the last
granule position and the pre-skip (a wrapping uint64 subtraction) over
the sample rate when some page carried a nonzero granule position, and
the byte length over 2000 otherwise, clamped to the interval from 1 to
300.  The float64 arithmetic of the source is modelled as exact natural
division, which agrees with it on every quotient below 2 to the 32; the
cosmetic 64-byte waveform output is outside the scope of the claims and
not modelled. -/
def AnalyzeOggOpus (data : List Nat) : Except OggError Nat :=
  if data.length < 4 ∨ byteSlice data 0 4 ≠ oggSBytes then .error .notOgg
  else
    match analyzeLoop data (data.length + 1) initScan 0 with
    | .error e => .error e
    | .ok st =>
        if st.lastGranule > 0 then
          .ok (durationFromGranule st.lastGranule st.preSkip st.sampleRate)
        else
          .ok (fallbackDuration data.length)

/-- The directory preference the claim words for a hit of the sender
cascade: full name, then business name, then the self-reported display
name. -/
def specContactName (c : ContactEntry) : String :=
  if c.fullName ≠ "" then c.fullName
  else if c.businessName ≠ "" then c.businessName
  else if c.pushName ≠ "" then c.pushName
  else ""

/-- The sender cascade exactly as the claim words it: the identity-mapping
table first, then the contact directory looked up by the exact identifier
and then by its phone-based variant (each hit under the preference of
specContactName), then the push name embedded in the message, then the
empty string. -/
def resolveSenderNameSpec (db : MsgDB) (dir : Directory) (sender : String)
    (senderJID : Option String) (pushName : String) : String :=
  let fromLid :=
    match db.lidMappings.find? (fun e => e.1 == sender) with
    | some e => e.2.2
    | none => ""
  if fromLid ≠ "" then fromLid
  else
    let h1 :=
      match senderJID with
      | some sj =>
          match getContact dir sj with
          | some c => specContactName c
          | none => ""
      | none => ""
    if h1 ≠ "" then h1
    else
      let h2 :=
        match getContact dir (sender ++ "@s.whatsapp.net") with
        | some c => specContactName c
        | none => ""
      if h2 ≠ "" then h2
      else if pushName ≠ "" then pushName
      else ""

/-- The first non-empty string of a list, empty when none is. -/
def firstNonEmpty : List String → String
  | [] => ""
  | s :: rest => if s ≠ "" then s else firstNonEmpty rest

/-- Stage one of the cascade the code implements: the lid_mappings
name. -/
def lidName (db : MsgDB) (sender : String) : String :=
  match db.lidMappings.find? (fun e => e.1 == sender) with
  | some e => e.2.2
  | none => ""

/-- Stage two of the cascade the code implements: a stored chat name for
the identifier, suffixed with the phone domain when bare. -/
def chatNameFor (db : MsgDB) (sender : String) : String :=
  let jid := if hasAt sender then sender else sender ++ "@s.whatsapp.net"
  match findChat db jid with
  | some row => row.name.getD ""
  | none => ""

/-- Stage three of the cascade the code implements: the directory under
the exact sender JID, full name then self-reported push name, skipped
when the sender JID is empty. -/
def exactDirName (dir : Directory) (senderJID : Option String) : String :=
  match senderJID with
  | some sj =>
      match getContact dir sj with
      | some c => contactHitName c
      | none => ""
  | none => ""

/-- Stage four of the cascade the code implements: the directory under
the phone-based variant of the bare sender, full name then self-reported
push name, also skipped when the sender JID is empty. -/
def phoneDirName (dir : Directory) (sender : String) (senderJID : Option String) : String :=
  match senderJID with
  | some _ =>
      match getContact dir (sender ++ "@s.whatsapp.net") with
      | some c => contactHitName c
      | none => ""
  | none => ""

/-- The amended sender cascade: the identity-mapping name, then a
non-empty stored chat name for the identifier, then the directory under
the exact sender JID preferring full name then self-reported push name
(business names are not consulted), then the directory under the
phone-based variant with the same preference (both directory stages are
skipped when the sender JID is empty), then the embedded push name, then
the empty string. -/
def resolveSenderNameAmended (db : MsgDB) (dir : Directory) (sender : String)
    (senderJID : Option String) (pushName : String) : String :=
  firstNonEmpty
    [lidName db sender, chatNameFor db sender, exactDirName dir senderJID,
      phoneDirName dir sender senderJID, pushName]

/-- Concrete inputs used by the claim counterexamples and witnesses. -/
def exM1 : MsgFields :=
  ⟨"M1", "C1", "700", "", "hello world", 100, false, "", "", "", [], [], [], 0⟩

def exM2 : MsgFields :=
  ⟨"M2", "C1", "700", "", "fresh stuff", 200, false, "", "", "", [], [], [], 0⟩

def exM1edit : MsgFields :=
  ⟨"M1", "C1", "700", "", "hello edited", 200, false, "", "", "", [], [], [], 0⟩

/-- An empty external directory. -/
def exDir : Directory := ⟨[], []⟩

/-- A live message of timestamp 3 for the chat g1 at g.us. -/
def exLive3 : LiveMessage :=
  ⟨"A1", "g1@g.us", "777", some "777@s.whatsapp.net", "Bob", 3, false,
    "hi", "", "", "", [], [], [], 0⟩

/-- A live message of timestamp 1 for the same chat, delivered later. -/
def exLive1 : LiveMessage :=
  ⟨"A2", "g1@g.us", "777", some "777@s.whatsapp.net", "Bob", 1, false,
    "later", "", "", "", [], [], [], 0⟩

/-- A directory whose only entry for the secondary identifier carries
only a business name. -/
def bizDir : Directory := ⟨[("999@lid", ⟨"", "Biz", ""⟩)], []⟩

/-- A history-sync backlog message with text but timestamp 0, authored by
a group participant. -/
def exHist0 : HistoryMessage :=
  ⟨some "H1", false, some "555@s.whatsapp.net", 0, "dropped text", "", "", "", [], [], [], 0⟩

/-- A stored message whose media descriptor lacks the remote locator. -/
def exNoUrl : MsgFields :=
  ⟨"D1", "C1", "700", "", "", 100, false, "image", "f.jpg", "", [1], [2], [3], 9⟩

/-- A message database holding only exNoUrl. -/
def exNoUrlDB : MsgDB := insertOrReplaceMessage emptyDB exNoUrl

/-- A single-page Ogg buffer: page sequence 0, granule position 100000,
one 24-byte segment holding an OpusHead block with pre-skip 312 and
sample rate 24000 followed by padding. -/
def goodBuf : List Nat :=
  [79, 103, 103, 83, 0, 2, 160, 134, 1, 0, 0, 0, 0, 0, 1, 0, 0, 0, 0, 0, 0, 0, 0, 0, 0, 0, 1, 24,
    79, 112, 117, 115, 72, 101, 97, 100, 1, 1, 56, 1, 192, 93, 0, 0, 0, 0, 0, 0, 0, 0, 0, 0]

/-- A 29-byte buffer with a valid signature whose only page declares one
segment of 255 bytes, far past the end of the buffer: the page passes the
header and segment-table guards yet its declared size overruns the
data. -/
def panicBuf : List Nat :=
  [79, 103, 103, 83, 0, 0, 0, 0, 0, 0, 0, 0, 0, 0, 0, 0, 0, 0, 0, 0, 0, 0, 0, 0, 0, 0, 1, 255, 0]

end WhatsappCli

namespace WhatsappCli

/-! Helper lemmas shared by the claim theorems. -/

theorem filter_of_filter_not {α : Type} (p : α → Bool) (l : List α) :
    (l.filter fun a => !(p a)).filter p = [] := by
  induction l with
  | nil => rfl
  | cons a l ih =>
      by_cases h : p a = true <;> simp [List.filter_cons, h, ih]

theorem find?_of_filter_not {α : Type} (p : α → Bool) (l : List α) :
    (l.filter fun a => !(p a)).find? p = none := by
  rw [List.find?_eq_none]
  intro x hx
  have := (List.mem_filter.mp hx).2
  simp at this
  simp [this]

/-- C1: the full-text index is claimed exactly consistent with
messages.content after every insert, update and delete.  Evaluation of
the failing sequence: insert id M1 with content hello world, DELETE it,
insert id M2 with content fresh stuff.  The AFTER DELETE trigger passes
no old column values to the FTS5 delete command, so the posting for the
deleted content survives; the next insert reuses rowid 1, and a search
for hello returns the M2 row even though its stored content does not
contain the token. -/
theorem fts_stale_posting_failing_input :
    searchMessages (applyMsgOps [MsgOp.ins exM1, MsgOp.del "M1" "C1", MsgOp.ins exM2] emptyDB)
        "hello" = [⟨1, exM2⟩] ∧
      tokenMatch "hello" exM2.content = false := by
  decide

theorem getMessage_insertOrReplace (db : MsgDB) (f : MsgFields) :
    getMessage (insertOrReplaceMessage db f) f.id f.chat_jid = [f] := by
  unfold getMessage insertOrReplaceMessage
  rw [List.filter_append, filter_of_filter_not (keyMatch f.id f.chat_jid)]
  simp [keyMatch]

/-- C3: the message upsert is last-write-wins on every column: after two
deliveries under the same (id, chat) key through the shared INSERT OR
REPLACE statement, the single stored row under that key carries exactly
the second delivery values, whatever the first held. -/
theorem message_upsert_last_write_wins (db : MsgDB) (f1 f2 : MsgFields)
    (_hid : f1.id = f2.id) (_hchat : f1.chat_jid = f2.chat_jid) :
    getMessage (insertOrReplaceMessage (insertOrReplaceMessage db f1) f2)
      f2.id f2.chat_jid = [f2] :=
  getMessage_insertOrReplace (insertOrReplaceMessage db f1) f2

/-- Witness for C3 at the spec scenario: hello then hello edited under
the key (M1, C1) leaves exactly the edited row. -/
theorem message_upsert_last_write_wins_witness :
    getMessage (insertOrReplaceMessage (insertOrReplaceMessage emptyDB exM1) exM1edit)
      "M1" "C1" = [exM1edit] :=
  message_upsert_last_write_wins emptyDB exM1 exM1edit rfl rfl

theorem find?_map_keyed_update (l : List (String × String × String)) (L : String)
    (g : String × String → String × String) (e : String × String × String)
    (h : l.find? (fun x => x.1 == L) = some e) :
    (l.map (fun x => if x.1 == L then (x.1, g x.2) else x)).find? (fun x => x.1 == L) =
      some (e.1, g e.2) := by
  induction l with
  | nil => simp at h
  | cons a l ih =>
      by_cases ha : (a.1 == L) = true
      · rw [@List.find?_cons_of_pos (String × String × String) (fun x => x.1 == L) a l ha] at h
        cases h
        simp only [List.map_cons, if_pos ha]
        exact @List.find?_cons_of_pos (String × String × String) (fun x => x.1 == L) _ _ ha
      · rw [@List.find?_cons_of_neg (String × String × String) (fun x => x.1 == L) a l ha] at h
        simp only [List.map_cons, if_neg ha]
        rw [@List.find?_cons_of_neg (String × String × String) (fun x => x.1 == L) _ _ ha]
        exact ih h

/-- C4: StoreLIDMapping merges per field and empty never clobbers known
data: for a stored mapping (L, P, N), an incoming upsert replaces phone
and name exactly when the incoming value for that field is non-empty. -/
theorem lid_mapping_merge (db : MsgDB) (L P N p n : String)
    (h : lookupLid db L = some (P, N)) :
    lookupLid (StoreLIDMapping db L p n) L =
      some ((if p ≠ "" then p else P), (if n ≠ "" then n else N)) := by
  unfold lookupLid at h
  obtain ⟨e, he, h2⟩ := Option.map_eq_some'.mp h
  have hpe : (e.1 == L) = true := @List.find?_some _ (fun x => x.1 == L) e _ he
  have hany : db.lidMappings.any (fun x => x.1 == L) = true := by
    rw [List.any_eq_true]
    exact ⟨e, List.mem_of_find?_eq_some he, hpe⟩
  unfold StoreLIDMapping lookupLid
  rw [if_pos hany]
  have := find?_map_keyed_update db.lidMappings L
    (fun q => ((if p ≠ "" then p else q.1), (if n ≠ "" then n else q.2))) e he
  simp only [this, Option.map_some', h2]

/-- Witness for C4 at the spec example: mapping (L1, P1, N1) updated with
empty phone and name N2 yields (P1, N2). -/
theorem lid_mapping_merge_witness :
    lookupLid (StoreLIDMapping ⟨[], [], [], [("L1", "P1", "N1")]⟩ "L1" "" "N2") "L1" =
      some ("P1", "N2") := by
  have := lid_mapping_merge ⟨[], [], [], [("L1", "P1", "N1")]⟩ "L1" "P1" "N1" "" "N2" rfl
  simpa using this

/-- C5: the staleness policy: never when opted out; otherwise always when
no prior success is recorded; otherwise exactly when the elapsed time
exceeds the 24 hour threshold, so an age of 25 hours triggers and an age
of 23 hours does not. -/
theorem auto_sync_policy :
    (∀ (last : Option Int) (now : Int), shouldAutoSync true last now = false) ∧
    (∀ now : Int, shouldAutoSync false none now = true) ∧
    (∀ t now : Int, shouldAutoSync false (some t) now = true ↔ now - t > autoSyncThreshold) ∧
    shouldAutoSync false (some 0) (25 * 3600) = true ∧
    shouldAutoSync false (some 0) (23 * 3600) = false := by
  refine ⟨fun last now => rfl, fun now => rfl, fun t now => ?_, by decide, by decide⟩
  simp [shouldAutoSync]

/-- C6: after the bounded wait of the sync scheduler ends, whichever way
it ends (completion observed, timeout, or for the one-time sync a user
cancellation), the persisted last-success timestamp is advanced to the
current time, and the policy does not retrigger immediately after. -/
theorem sync_time_always_advanced :
    (∀ (w : QuickWait) (now : Int) (st : SyncState),
        (performQuickSync w now st).lastSync = some now) ∧
    (∀ (w : RunSyncWait) (now : Int) (st : SyncState),
        (runSyncFinish w now st).lastSync = some now) ∧
    (∀ (w : QuickWait) (now : Int) (st : SyncState),
        shouldAutoSync false (performQuickSync w now st).lastSync now = false) := by
  refine ⟨fun w now st => ?_, fun w now st => ?_, fun w now st => ?_⟩
  · cases w <;> rfl
  · cases w <;> rfl
  · cases w <;> simp [performQuickSync, shouldAutoSync, autoSyncThreshold]

/-- C9: DownloadMedia fails with the incomplete-media error and attempts
no download whenever the stored descriptor misses remote locator, media
key, content hash, encrypted-content hash or byte length; a download (a
returned descriptor) happens only when all five are present. -/
theorem download_media_guard (db : MsgDB) (messageID chatJID : String) (f : MsgFields)
    (hrow : (getMessage db messageID chatJID).head? = some f) :
    ((f.url = "" ∨ f.media_key = [] ∨ f.file_sha256 = [] ∨ f.file_enc_sha256 = [] ∨
        f.file_length = 0) →
      DownloadMedia db messageID chatJID = .error .incompleteMedia) ∧
    (∀ d, DownloadMedia db messageID chatJID = .ok d →
      f.url ≠ "" ∧ f.media_key ≠ [] ∧ f.file_sha256 ≠ [] ∧ f.file_enc_sha256 ≠ [] ∧
        f.file_length ≠ 0) := by
  have hDM : DownloadMedia db messageID chatJID =
      (if (f.media_type == "" || f.url == "" || f.media_key.isEmpty || f.file_sha256.isEmpty
          || f.file_enc_sha256.isEmpty || f.file_length == 0) = true then
        Except.error DownloadErr.incompleteMedia
      else
        Except.ok ⟨f.url, f.media_key, f.file_length, f.file_sha256, f.file_enc_sha256,
          f.media_type⟩) := by
    unfold DownloadMedia
    rw [hrow]
  constructor
  · rintro (h | h | h | h | h) <;> rw [hDM] <;> simp [h]
  · intro d hd
    rw [hDM] at hd
    split at hd
    · simp at hd
    · rename_i hc
      simp only [Bool.or_eq_true, not_or] at hc
      obtain ⟨⟨⟨⟨⟨-, h2⟩, h3⟩, h4⟩, h5⟩, h6⟩ := hc
      refine ⟨?_, ?_, ?_, ?_, ?_⟩ <;> simp_all

/-- Witness for C9: a stored image row with every field but the remote
locator yields the incomplete-media error. -/
theorem download_media_guard_witness :
    DownloadMedia exNoUrlDB "D1" "C1" = .error .incompleteMedia :=
  (download_media_guard exNoUrlDB "D1" "C1" exNoUrl (by decide)).1 (Or.inl rfl)

end WhatsappCli

namespace WhatsappCli

theorem findChat_insertOrReplaceChat (db : MsgDB) (jid : String) (name : Option String)
    (t : Option Int) :
    findChat (insertOrReplaceChat db jid name t) jid = some ⟨jid, name, t⟩ := by
  unfold findChat insertOrReplaceChat
  rw [List.find?_append, find?_of_filter_not (fun r : ChatRow => r.jid == jid)]
  simp

theorem chatLastTime_insertOrReplaceMessage (db : MsgDB) (f : MsgFields) (j : String) :
    chatLastTime (insertOrReplaceMessage db f) j = chatLastTime db j := rfl

/-- C2: claimed, last_message_time advances only when the incoming
timestamp is newer and converges to the maximum in any delivery order.
Counterexample at a concrete input: two live messages for the chat g1 at
g.us delivered in the order timestamp 3 then timestamp 1 leave the stored
last_message_time at 1, not at the maximum 3, because the chat upsert is
an unconditional INSERT OR REPLACE of the whole row. -/
theorem chat_time_regress_counterexample :
    chatLastTime (handleMessage exDir (handleMessage exDir emptyDB exLive3) exLive1) "g1@g.us" =
        some (some 1) ∧
      ¬ chatLastTime (handleMessage exDir (handleMessage exDir emptyDB exLive3) exLive1)
          "g1@g.us" = some (some 3) := by
  decide

/-- C2 amended: on every non-dropped live delivery the chat row's
last_message_time is unconditionally overwritten with the incoming
message timestamp, whatever was stored before, so it equals the most
recent delivery's timestamp and converges to T3 exactly when the T3
message is delivered last (the history-sync producer likewise overwrites
it with its first backlog timestamp). -/
theorem chat_time_last_write_wins (dir : Directory) (db : MsgDB) (m : LiveMessage)
    (h : (m.content == "" && m.mediaType == "") = false) :
    chatLastTime (handleMessage dir db m) m.chatJID = some (some m.timestamp) := by
  unfold handleMessage
  simp only [h, Bool.false_eq_true, if_false]
  show chatLastTime (insertOrReplaceChat _ m.chatJID _ (some m.timestamp)) m.chatJID = _
  unfold chatLastTime
  rw [findChat_insertOrReplaceChat]
  rfl

/-- Witness for the amended C2 at a concrete input: one delivery with
timestamp 3 stores 3. -/
theorem chat_time_last_write_wins_witness :
    chatLastTime (handleMessage exDir emptyDB exLive3) "g1@g.us" = some (some 3) :=
  chat_time_last_write_wins exDir emptyDB exLive3 rfl

end WhatsappCli

namespace WhatsappCli

/-- C7: claimed cascade, mapping table then directory (full name, business
name, display name) then push name.  Counterexample at a concrete input:
with no mapping and no chat rows, a directory entry for the exact sender
JID that carries only a business name, and push name Push, the code
returns Push (it never consults business names for senders) while the
claimed cascade returns Biz. -/
theorem resolve_sender_cascade_counterexample :
    resolveSenderName emptyDB bizDir "999" (some "999@lid") "Push" = "Push" ∧
      resolveSenderNameSpec emptyDB bizDir "999" (some "999@lid") "Push" = "Biz" :=
  ⟨by decide, by decide⟩

/-- C7 amended: sender resolution follows the identity-mapping table, then
an existing non-empty chat-row name for the identifier (suffixed with the
phone domain when bare), then the directory under the exact sender JID
preferring full name then self-reported push name with business names
never consulted, then the directory under the phone-based variant with
the same preference (both directory stages skipped when the sender JID is
empty), then the push name embedded in the message, then the empty
string. -/
theorem resolve_sender_cascade_amended (db : MsgDB) (dir : Directory) (sender : String)
    (senderJID : Option String) (pushName : String) :
    resolveSenderName db dir sender senderJID pushName =
      resolveSenderNameAmended db dir sender senderJID pushName := by
  unfold resolveSenderName resolveSenderNameAmended ResolveSenderName lidName chatNameFor
    exactDirName phoneDirName firstNonEmpty
  cases senderJID with
  | none =>
      rcases hf : db.lidMappings.find? (fun e => e.1 == sender) with _ | e <;>
        simp only [hf] <;>
        rcases hc : findChat db
            (if hasAt sender = true then sender else sender ++ "@s.whatsapp.net")
          with _ | row <;> simp only [hc] <;>
        (try rcases hn : row.name with _ | n <;> simp only [hn]) <;>
        split_ifs <;> simp_all [firstNonEmpty]
  | some sj =>
      rcases hf : db.lidMappings.find? (fun e => e.1 == sender) with _ | e <;>
        simp only [hf] <;>
        rcases hc : findChat db
            (if hasAt sender = true then sender else sender ++ "@s.whatsapp.net")
          with _ | row <;> simp only [hc] <;>
        (try rcases hn : row.name with _ | n <;> simp only [hn]) <;>
        rcases hg1 : getContact dir sj with _ | c1 <;> simp only [hg1] <;>
        rcases hg2 : getContact dir (sender ++ "@s.whatsapp.net") with _ | c2 <;>
          simp only [hg2] <;>
        split_ifs <;> simp_all [firstNonEmpty]

end WhatsappCli

namespace WhatsappCli

theorem upsertShadowChat_messages (dir : Directory) (db : MsgDB) (snd : String) :
    (upsertShadowChat dir db snd).messages = db.messages := by
  unfold upsertShadowChat insertChatIfAbsent updateChatName
  rcases h : findChat db (snd ++ "@s.whatsapp.net") with _ | row
  · simp only [h]
    split <;> rfl
  · simp only [h]
    rcases hn : row.name with _ | n
    · simp only [hn]
    · simp only [hn]
      split_ifs <;> rfl

theorem findChat_insertChatIfAbsent (db : MsgDB) (jid : String) (name : Option String)
    (h : findChat db jid = none) :
    findChat (insertChatIfAbsent db jid name) jid = some ⟨jid, name, none⟩ := by
  unfold insertChatIfAbsent
  have hany : db.chats.any (fun r => r.jid == jid) = false := by
    rw [List.any_eq_false]
    intro r hr
    have h2 := List.find?_eq_none.mp h r hr
    simpa using h2
  rw [if_neg (by simp [hany])]
  unfold findChat at h ⊢
  rw [List.find?_append, h]
  simp

theorem find?_chat_update (l : List ChatRow) (jid name : String) (row : ChatRow)
    (h : l.find? (fun r => r.jid == jid) = some row) :
    (l.map (fun r =>
        if r.jid == jid then ChatRow.mk r.jid (some name) r.last_message_time else r)).find?
        (fun r => r.jid == jid) =
      some ⟨row.jid, some name, row.last_message_time⟩ := by
  induction l with
  | nil => simp at h
  | cons a l ih =>
      by_cases ha : (a.jid == jid) = true
      · rw [@List.find?_cons_of_pos ChatRow (fun r => r.jid == jid) a l ha] at h
        cases h
        simp only [List.map_cons, if_pos ha]
        exact @List.find?_cons_of_pos ChatRow (fun r => r.jid == jid) _ _ ha
      · rw [@List.find?_cons_of_neg ChatRow (fun r => r.jid == jid) a l ha] at h
        simp only [List.map_cons, if_neg ha]
        rw [@List.find?_cons_of_neg ChatRow (fun r => r.jid == jid) _ _ ha]
        exact ih h

/-- C10: in history-sync ingestion a non-self message carrying text or
media but a zero timestamp writes no message row, yet before the
timestamp check the per-sender shadow chat block still runs: when no
chat row is keyed by the sender with the phone domain one is inserted
with a resolved name, and when the stored row holds the empty name it is
renamed to a non-empty resolved name. -/
theorem history_zero_ts_shadow_effect (dir : Directory) (ownUser chatJID : String)
    (db : MsgDB) (m : HistoryMessage)
    (hcontent : (m.content == "" && m.mediaType == "") = false)
    (hts : m.timestamp = 0) (hnotme : m.keyFromMe = false)
    (hsnd : historySender ownUser chatJID m ≠ "") :
    (handleHistoryMessage dir ownUser chatJID db m).messages = db.messages ∧
      (findChat db (historySender ownUser chatJID m ++ "@s.whatsapp.net") = none →
        findChat (handleHistoryMessage dir ownUser chatJID db m)
            (historySender ownUser chatJID m ++ "@s.whatsapp.net") =
          some ⟨historySender ownUser chatJID m ++ "@s.whatsapp.net",
            some (resolvePreferredName dir
              (historySender ownUser chatJID m ++ "@s.whatsapp.net")), none⟩) ∧
      (∀ row, findChat db (historySender ownUser chatJID m ++ "@s.whatsapp.net") = some row →
        row.name = some "" →
        resolvePreferredName dir (historySender ownUser chatJID m ++ "@s.whatsapp.net") ≠ "" →
        findChat (handleHistoryMessage dir ownUser chatJID db m)
            (historySender ownUser chatJID m ++ "@s.whatsapp.net") =
          some ⟨row.jid, some (resolvePreferredName dir
            (historySender ownUser chatJID m ++ "@s.whatsapp.net")), row.last_message_time⟩) := by
  have hH : handleHistoryMessage dir ownUser chatJID db m =
      upsertShadowChat dir db (historySender ownUser chatJID m) := by
    unfold handleHistoryMessage
    simp [hcontent, hnotme, hts, hsnd]
  refine ⟨?_, ?_, ?_⟩
  · rw [hH]
    exact upsertShadowChat_messages dir db (historySender ownUser chatJID m)
  · intro h
    rw [hH]
    unfold upsertShadowChat
    simp only [h]
    exact findChat_insertChatIfAbsent db _ _ h
  · intro row hrow hname hres
    rw [hH]
    unfold upsertShadowChat
    simp only [hrow, hname]
    rw [if_pos (beq_self_eq_true ""), if_pos hres]
    unfold updateChatName findChat
    unfold findChat at hrow
    exact find?_chat_update db.chats _ _ row hrow

/-- Witness for C10 at a concrete input: a participant message with text
and timestamp 0 against an empty store writes no message row yet creates
the shadow chat row for 555 with its resolved (local part) name. -/
theorem history_zero_ts_shadow_effect_witness :
    (handleHistoryMessage exDir "me" "g9@g.us" emptyDB exHist0).messages = [] ∧
      findChat (handleHistoryMessage exDir "me" "g9@g.us" emptyDB exHist0)
          "555@s.whatsapp.net" = some ⟨"555@s.whatsapp.net", some "555", none⟩ := by
  have h := history_zero_ts_shadow_effect exDir "me" "g9@g.us" emptyDB exHist0
    (by decide) rfl rfl (by decide)
  exact ⟨h.1, h.2.1 rfl⟩

/-- C8: claimed, every buffer with a valid signature yields a duration
(granule formula or byte-length fallback) and only short or unsigned
buffers yield an error.  Counterexample at a concrete input: the 29-byte
panicBuf carries the valid signature and passes the header and
segment-table guards, but its single page declares a 255-byte segment
running past the end of the buffer, and the analyzer slices that page
unguarded: a Go runtime bounds failure, not a duration and not the
documented error. -/
theorem analyze_ogg_truncated_counterexample :
    4 ≤ panicBuf.length ∧ byteSlice panicBuf 0 4 = oggSBytes ∧
      AnalyzeOggOpus panicBuf = .error .pageOutOfRange :=
  ⟨by decide, by decide, rfl⟩

/-- C8 amended: a buffer shorter than 4 bytes or without the OggS
signature yields the not-an-Ogg error; otherwise, when the page walk
completes (no page examined for the codec block overruns the buffer),
the duration is ceil of the wrapping difference of last granule position
and pre-skip over the sample rate when some page carried a nonzero
granule position (pre-skip and sample rate from the codec block,
defaults 0 and 48000), and the byte length over 2000 otherwise, clamped
to the interval from 1 to 300. -/
theorem analyze_ogg_duration :
    (∀ data : List Nat, data.length < 4 ∨ ¬ byteSlice data 0 4 = oggSBytes →
        AnalyzeOggOpus data = .error .notOgg) ∧
    (∀ (data : List Nat) (st : OggScan),
        4 ≤ data.length → byteSlice data 0 4 = oggSBytes →
        analyzeLoop data (data.length + 1) initScan 0 = .ok st →
        AnalyzeOggOpus data =
          .ok (if 0 < st.lastGranule then
              durationFromGranule st.lastGranule st.preSkip st.sampleRate
            else fallbackDuration data.length)) := by
  constructor
  · intro data h
    unfold AnalyzeOggOpus
    rw [if_pos h]
  · intro data st h4 hsig hscan
    unfold AnalyzeOggOpus
    rw [if_neg (by push_neg; exact ⟨by omega, hsig⟩), hscan]
    by_cases hg : 0 < st.lastGranule <;> simp [hg]

/-- Witness for the amended C8: the crafted single-page buffer with
granule position 100000, pre-skip 312 and sample rate 24000 yields
ceil(99688 / 24000) = 5 seconds, and a 2-byte buffer yields the
not-an-Ogg error. -/
theorem analyze_ogg_duration_witness :
    AnalyzeOggOpus goodBuf = .ok 5 ∧ AnalyzeOggOpus [79, 103] = .error .notOgg := by
  constructor
  · have h := analyze_ogg_duration.2 goodBuf ⟨100000, 24000, 312, true⟩
      (by decide) (by decide) rfl
    have h2 : (if 0 < (100000 : Nat) then durationFromGranule 100000 312 24000
        else fallbackDuration goodBuf.length) = 5 := by decide
    exact h.trans (congrArg Except.ok h2)
  · exact analyze_ogg_duration.1 [79, 103] (Or.inl (by decide))

end WhatsappCli
